import Mathlib

/-!
Shallow embedding of the QRAttendance application
(src/digital_attendance/app.py): the attendance ledger operation
`mark_attendance`, the QR-scan debounce gate and feedback overlay inside
`QRScanner.transform`, and the surrounding state.

Times (`time.time()` values) are modelled as integer milliseconds, so the
code's literal thresholds `1.5` (seconds, debounce) and `4`
(`message_timeout`, seconds) become `1500` and `4000`; only differences of
times are ever compared against these constants, so the scaling is exact.
The CSV tables
(`users.csv`, `attendance.csv`) are modelled as lists of rows, read at the
start of `mark_attendance` and written back whole at the end, exactly as the
pandas read_csv / to_csv sequence does.
-/

namespace QRAttendance

/-- One row of `users.csv` (columns user_id, name, roll_number, branch,
image_path, qr_path as written by `save_user`). -/
structure UserRow where
  user_id : String
  name : String
  roll_number : Nat
  branch : String
  image_path : String
  qr_path : String
deriving Repr, DecidableEq

/-- One row of `attendance.csv` (columns user_id, name, roll_number, branch,
image_path, date, timestamp as written by `mark_attendance`). -/
structure AttRow where
  user_id : String
  name : String
  roll_number : Nat
  branch : String
  image_path : String
  date : String
  timestamp : String
deriving Repr, DecidableEq

/-- The three outcome strings `mark_attendance` can return
("not_found", "duplicate", "success"). -/
inductive Status where
  | not_found
  | duplicate
  | success
deriving Repr, DecidableEq

/-- The row predicate of the duplicate check
`(df_att["user_id"] == user_id) & (df_att["date"] == today)`. -/
def attKey (user_id today : String) (r : AttRow) : Bool :=
  r.user_id == user_id && r.date == today

/-- `mark_attendance(user_id)` from app.py lines 213-239, with the ambient
inputs made explicit: `users` and `att` are the tables read from the two CSV
files, `today` is `date.today().strftime("%Y-%m-%d")` and `now` is
`datetime.now().strftime("%H:%M:%S")`.  Returns the `(user_info, status)`
pair together with the attendance table as written back to disk.
`df_users[df_users["user_id"] == user_id].iloc[0]` selects the first
matching user row; the appended entry copies the user row's fields and is
written with `df_att.to_csv`. -/
def mark_attendance (users : List UserRow) (att : List AttRow)
    (user_id today now : String) : Option UserRow × Status × List AttRow :=
  match users.find? (fun u => u.user_id == user_id) with
  | none => (none, Status.not_found, att)
  | some u =>
    if att.any (attKey user_id today) then
      (some u, Status.duplicate, att)
    else
      (some u, Status.success,
        att ++ [{ user_id := user_id, name := u.name,
                  roll_number := u.roll_number, branch := u.branch,
                  image_path := u.image_path, date := today,
                  timestamp := now }])

/-- Variant of `mark_attendance` that makes the final `df_att.to_csv` write
fallible: the Python call has no exception handling, so a failing write
raises out of the function.  `writeOk = false` models the backing store
rejecting the write; the raised exception is the `Except.error`. -/
def mark_attendanceE (writeOk : Bool) (users : List UserRow)
    (att : List AttRow) (user_id today now : String) :
    Except Unit (Option UserRow × Status × List AttRow) :=
  match users.find? (fun u => u.user_id == user_id) with
  | none => Except.ok (none, Status.not_found, att)
  | some u =>
    if att.any (attKey user_id today) then
      Except.ok (some u, Status.duplicate, att)
    else if writeOk then
      Except.ok (some u, Status.success,
        att ++ [{ user_id := user_id, name := u.name,
                  roll_number := u.roll_number, branch := u.branch,
                  image_path := u.image_path, date := today,
                  timestamp := now }])
    else
      Except.error ()

/-- Number of attendance rows stored for a given (identity, date) key. -/
def countKey (att : List AttRow) (user_id today : String) : Nat :=
  (att.filter (attKey user_id today)).length

/-- Python's `str.strip()`: drop leading and trailing whitespace. -/
def pyStrip (s : String) : String :=
  String.mk
    (((s.data.dropWhile Char.isWhitespace).reverse.dropWhile
        Char.isWhitespace).reverse)

/-- The mutable fields of `QRScanner` that the per-frame logic touches
(`__init__`, app.py lines 296-305): the gate memory (`last_id`,
`last_time`), the feedback overlay (`overlay_message`, `overlay_color`,
`message_shown_time`, `current_user`).  `message_timeout` is the constant 4
seconds (4000 ms here).  Times are integer milliseconds. -/
structure ScannerState where
  last_id : Option String
  last_time : Int
  overlay_message : String
  overlay_color : Nat × Nat × Nat
  message_shown_time : Int
  current_user : Option UserRow
deriving Repr, DecidableEq

/-- `QRScanner.__init__` at construction time `t0`: `last_id = None`,
`last_time = time.time()`, empty overlay, white colour,
`message_shown_time = 0`, `current_user = None`. -/
def initScanner (t0 : Int) : ScannerState :=
  { last_id := none, last_time := t0, overlay_message := "",
    overlay_color := (255, 255, 255), message_shown_time := 0,
    current_user := none }

/-- Debounce window: the literal `1.5` seconds of app.py line 323, in ms. -/
def debounce_window : Int := 1500

/-- Feedback TTL: `self.message_timeout = 4` seconds, in ms. -/
def message_timeout : Int := 4000

/-- Overlay message and colour set for each `mark_attendance` status
(app.py lines 329-337).  Every status sets one of the three branches. -/
def statusOverlay : Status → String × (Nat × Nat × Nat)
  | Status.success => ("✔ Attendance Marked", (0, 200, 0))
  | Status.duplicate => ("⚠ Already Marked", (0, 200, 200))
  | Status.not_found => ("❌ User Not Found", (0, 0, 200))

/-- The scan half of `QRScanner.transform` (app.py lines 321-341): if the
frame decoded to a payload `data` (non-empty string from
`detectAndDecode`), strip it, and forward it to `mark_attendance` exactly
when it is non-empty, differs from `last_id`, and more than the debounce
window has elapsed since `last_time`; on forwarding, record the outcome in
the overlay fields and set `last_id`, `last_time` and `message_shown_time`
to the current payload and time.  Returns the new state, the attendance
table, and whether the payload was forwarded to the ledger. -/
def scanStep (users : List UserRow) (today now : String)
    (st : ScannerState) (att : List AttRow) (data : String) (t : Int) :
    ScannerState × List AttRow × Bool :=
  if data ≠ "" then
    let uid := pyStrip data
    if uid ≠ "" ∧ some uid ≠ st.last_id ∧ debounce_window < t - st.last_time
    then
      let res := mark_attendance users att uid today now
      ({ st with
          overlay_message := (statusOverlay res.2.1).1,
          overlay_color := (statusOverlay res.2.1).2,
          current_user := res.1,
          last_id := some uid, last_time := t, message_shown_time := t },
        res.2.2, true)
    else (st, att, false)
  else (st, att, false)

/-- The expiry half of `QRScanner.transform` (app.py lines 343-346), run on
every frame: if an overlay message is showing and strictly more than
`message_timeout` has elapsed since `message_shown_time`, clear the
message, reset the colour to white and drop `current_user`. -/
def expireStep (st : ScannerState) (t : Int) : ScannerState :=
  if st.overlay_message ≠ "" ∧ message_timeout < t - st.message_shown_time
  then
    { st with overlay_message := "", overlay_color := (255, 255, 255),
              current_user := none }
  else st

/-- One full `transform` call on a frame whose decode produced `data`
(`""` when no QR was found) at time `t`: the scan block, then the expiry
check. -/
def transformStep (users : List UserRow) (today now : String)
    (st : ScannerState) (att : List AttRow) (data : String) (t : Int) :
    ScannerState × List AttRow × Bool :=
  let r := scanStep users today now st att data t
  (expireStep r.1 t, r.2.1, r.2.2)

/-- Run `transform` over a list of frames, each given as (decoded payload,
time); collects the events that were forwarded to the ledger. -/
def runFrames (users : List UserRow) (today now : String)
    (st : ScannerState) (att : List AttRow) :
    List (String × Int) → ScannerState × List AttRow × List (String × Int)
  | [] => (st, att, [])
  | f :: rest =>
    let r := transformStep users today now st att f.1 f.2
    let rs := runFrames users today now r.1 r.2.1 rest
    (rs.1, rs.2.1, (if r.2.2 then [f] else []) ++ rs.2.2)

/-- `transform` with the fallible CSV write of `mark_attendanceE`: an
`Except.error` models the uncaught exception propagating out of
`transform`; the error value carries the scanner state and attendance
table as they stood at the raise point (no field of `self` has been
assigned yet, and the failed write left the table as read). -/
def transformStepE (writeOk : Bool) (users : List UserRow)
    (today now : String) (st : ScannerState) (att : List AttRow)
    (data : String) (t : Int) :
    Except (ScannerState × List AttRow)
      (ScannerState × List AttRow × Bool) :=
  if data ≠ "" then
    let uid := pyStrip data
    if uid ≠ "" ∧ some uid ≠ st.last_id ∧ debounce_window < t - st.last_time
    then
      match mark_attendanceE writeOk users att uid today now with
      | Except.error _ => Except.error (st, att)
      | Except.ok res =>
        Except.ok
          (expireStep
            { st with
                overlay_message := (statusOverlay res.2.1).1,
                overlay_color := (statusOverlay res.2.1).2,
                current_user := res.1,
                last_id := some uid, last_time := t,
                message_shown_time := t } t,
            res.2.2, true)
    else Except.ok (expireStep st t, att, false)
  else Except.ok (expireStep st t, att, false)

/-- Two `mark_attendance` calls run to completion one after the other:
the second call reads the table the first one wrote.  Returns the two
statuses and the final table. -/
def serialTwo (users : List UserRow) (att : List AttRow)
    (user_id today n1 n2 : String) : Status × Status × List AttRow :=
  let r1 := mark_attendance users att user_id today n1
  let r2 := mark_attendance users r1.2.2 user_id today n2
  (r1.2.1, r2.2.1, r2.2.2)

/-- Two `mark_attendance` calls interleaved so that both execute
`pd.read_csv(ATTENDANCE_CSV)` before either executes `to_csv`: each call
computes its status and its full output table from the same snapshot
`att`, and the second `to_csv` overwrites the file written by the first.
This is the read/compare/append/write schedule available to two
near-simultaneous executions. -/
def interleavedTwo (users : List UserRow) (att : List AttRow)
    (user_id today n1 n2 : String) : Status × Status × List AttRow :=
  let r1 := mark_attendance users att user_id today n1
  let r2 := mark_attendance users att user_id today n2
  (r1.2.1, r2.2.1, r2.2.2)

/-- A sequence of `mark_attendance` calls, each with its own
(user_id, today, now) triple, threading the attendance table through. -/
def runMarks (users : List UserRow) (att : List AttRow) :
    List (String × String × String) → List AttRow
  | [] => att
  | c :: rest =>
    runMarks users (mark_attendance users att c.1 c.2.1 c.2.2).2.2 rest

/-- A sample registered user, as `save_user("Asha", "1", "CSE", None)`
would store it. -/
def ashaUser : UserRow :=
  { user_id := "1_Asha", name := "Asha", roll_number := 1, branch := "CSE",
    image_path := "", qr_path := "qr.png" }

/-- A sample scanner state in the Resolved feedback state: an overlay
message is showing, `message_shown_time = 0`. -/
def stResolved : ScannerState :=
  { last_id := none, last_time := 0, overlay_message := "x",
    overlay_color := (0, 200, 0), message_shown_time := 0,
    current_user := none }

end QRAttendance

/-!
Theorems.  `C1`-`C10` refer to the natural-language claims about the
program; each claim has one main theorem below, plus a witness applying it
to concrete inputs and, for refuted claims, a concrete counterexample.
-/

namespace QRAttendance

/-- Helper: if no row of `att` satisfies `p` then the filter is empty. -/
theorem filter_eq_nil_of_any_eq_false (att : List AttRow)
    (p : AttRow → Bool) (h : att.any p = false) : att.filter p = [] := by
  rw [List.filter_eq_nil_iff]
  intro a ha
  rw [List.any_eq_false] at h
  simp [h a ha]

/-- Helper: appending one row adds 1 to the count when the row has the key
and 0 otherwise. -/
theorem countKey_append (att : List AttRow) (r : AttRow) (uid d : String) :
    countKey (att ++ [r]) uid d =
      countKey att uid d + (if attKey uid d r = true then 1 else 0) := by
  by_cases hk : attKey uid d r = true <;>
    simp [countKey, List.filter_append, List.filter_cons, hk]

/-- Helper: when the identity is registered and no attendance row has the
(identity, date) key, `mark_attendance` succeeds and appends the snapshot
row with the given timestamp. -/
theorem mark_attendance_first_call (users : List UserRow)
    (att : List AttRow) (uid d now : String) (u : UserRow)
    (hu : users.find? (fun x => x.user_id == uid) = some u)
    (h0 : att.any (attKey uid d) = false) :
    mark_attendance users att uid d now =
      (some u, Status.success,
        att ++ [{ user_id := uid, name := u.name,
                  roll_number := u.roll_number, branch := u.branch,
                  image_path := u.image_path, date := d,
                  timestamp := now }]) := by
  simp [mark_attendance, hu, h0]

/-- Helper: when the identity is registered and some attendance row already
has the (identity, date) key, `mark_attendance` reports a duplicate and
returns the table unchanged. -/
theorem mark_attendance_duplicate_of_mem (users : List UserRow)
    (att : List AttRow) (uid d now : String) (u : UserRow) (r : AttRow)
    (hu : users.find? (fun x => x.user_id == uid) = some u)
    (hr : r ∈ att) (hid : r.user_id = uid) (hd : r.date = d) :
    mark_attendance users att uid d now = (some u, Status.duplicate, att) := by
  have ha : att.any (attKey uid d) = true :=
    List.any_eq_true.mpr ⟨r, hr, by simp [attKey, hid, hd]⟩
  simp [mark_attendance, hu, ha]

/-- Helper: one `mark_attendance` call preserves "at most one row per
(identity, date) key". -/
theorem countKey_mark_attendance_le (users : List UserRow)
    (att : List AttRow) (user_id today now uid d : String)
    (h : countKey att uid d ≤ 1) :
    countKey (mark_attendance users att user_id today now).2.2 uid d ≤ 1 := by
  cases hf : users.find? (fun u => u.user_id == user_id) with
  | none => simpa [mark_attendance, hf] using h
  | some u =>
    by_cases ha : att.any (attKey user_id today) = true
    · simpa [mark_attendance, hf, ha] using h
    · rw [Bool.not_eq_true] at ha
      rw [mark_attendance_first_call users att user_id today now u hf ha]
      rw [countKey_append]
      by_cases hk : attKey uid d
          { user_id := user_id, name := u.name,
            roll_number := u.roll_number, branch := u.branch,
            image_path := u.image_path, date := today,
            timestamp := now } = true
      · simp only [attKey] at hk
        obtain ⟨hk1, hk2⟩ := by simpa using hk
        subst hk1
        subst hk2
        simp [attKey, countKey, filter_eq_nil_of_any_eq_false att _ ha]
      · simpa [hk] using h

/-- Claim C1: starting from a table in which every (identity, date) pair
has at most one attendance row, any sequence of `mark_attendance` calls
leaves a table in which every (identity, date) pair still has at most one
row — the duplicate check skips the append whenever a row with the key
exists, and a successful call appends exactly one row with a fresh key. -/
theorem runMarks_at_most_one_per_key (users : List UserRow)
    (calls : List (String × String × String)) (att : List AttRow)
    (h : ∀ uid d, countKey att uid d ≤ 1) (uid d : String) :
    countKey (runMarks users att calls) uid d ≤ 1 := by
  induction calls generalizing att with
  | nil => simpa [runMarks] using h uid d
  | cons c rest ih =>
    simp only [runMarks]
    exact ih _ (fun uid' d' =>
      countKey_mark_attendance_le users att c.1 c.2.1 c.2.2 uid' d'
        (h uid' d'))

/-- Witness for C1: two same-day calls for the same identity starting from
an empty table leave at most one row for the key. -/
theorem runMarks_at_most_one_per_key_witness :
    countKey (runMarks [ashaUser] []
        [("1_Asha", "2024-05-01", "09:00:00"),
         ("1_Asha", "2024-05-01", "09:00:05")]) "1_Asha" "2024-05-01" ≤ 1 :=
  runMarks_at_most_one_per_key [ashaUser]
    [("1_Asha", "2024-05-01", "09:00:00"),
     ("1_Asha", "2024-05-01", "09:00:05")] []
    (fun _ _ => Nat.zero_le 1) "1_Asha" "2024-05-01"

/-- Claim C2: for a registered identity with no attendance row for date
`d`, a first call at timestamp `n1` returns success and a second call on
the same date at timestamp `n2` returns duplicate, and the table then holds
exactly one row for the key, still carrying timestamp `n1`. -/
theorem mark_attendance_same_day_idempotent (users : List UserRow)
    (att : List AttRow) (uid d n1 n2 : String) (u : UserRow)
    (hu : users.find? (fun x => x.user_id == uid) = some u)
    (h0 : att.any (attKey uid d) = false) :
    (mark_attendance users att uid d n1).2.1 = Status.success ∧
    (mark_attendance users (mark_attendance users att uid d n1).2.2 uid d
        n2).2.1 = Status.duplicate ∧
    ((mark_attendance users (mark_attendance users att uid d n1).2.2 uid d
        n2).2.2).filter (attKey uid d) =
      [{ user_id := uid, name := u.name, roll_number := u.roll_number,
         branch := u.branch, image_path := u.image_path, date := d,
         timestamp := n1 }] := by
  have h1 := mark_attendance_first_call users att uid d n1 u hu h0
  have h2 := mark_attendance_duplicate_of_mem users
      (att ++ [{ user_id := uid, name := u.name,
                 roll_number := u.roll_number, branch := u.branch,
                 image_path := u.image_path, date := d,
                 timestamp := n1 }]) uid d n2 u
      { user_id := uid, name := u.name, roll_number := u.roll_number,
        branch := u.branch, image_path := u.image_path, date := d,
        timestamp := n1 }
      hu (by simp) rfl rfl
  rw [h1]
  refine ⟨rfl, ?_, ?_⟩
  · rw [h2]
  · rw [h2]
    simp only [List.filter_append,
      filter_eq_nil_of_any_eq_false att _ h0, List.nil_append]
    simp [attKey]

/-- Witness for C2 on an empty table and one registered user. -/
theorem mark_attendance_same_day_idempotent_witness :
    (mark_attendance [ashaUser] [] "1_Asha" "2024-05-01" "09:00:00").2.1 =
        Status.success ∧
    (mark_attendance [ashaUser]
        (mark_attendance [ashaUser] [] "1_Asha" "2024-05-01"
          "09:00:00").2.2 "1_Asha" "2024-05-01" "09:00:05").2.1 =
        Status.duplicate ∧
    ((mark_attendance [ashaUser]
        (mark_attendance [ashaUser] [] "1_Asha" "2024-05-01"
          "09:00:00").2.2 "1_Asha" "2024-05-01"
        "09:00:05").2.2).filter (attKey "1_Asha" "2024-05-01") =
      [{ user_id := "1_Asha", name := "Asha", roll_number := 1,
         branch := "CSE", image_path := "", date := "2024-05-01",
         timestamp := "09:00:00" }] :=
  mark_attendance_same_day_idempotent [ashaUser] [] "1_Asha" "2024-05-01"
    "09:00:00" "09:00:05" ashaUser (by decide) rfl

/-- Claim C5: when an attendance row for (identity, today) already exists
and the identity resolves in the user directory, `mark_attendance` returns
the duplicate outcome and leaves the table unchanged; the user info it
returns carries exactly the existing row's snapshot fields (which, for
tables produced by this application, always agree with the directory row
they were copied from). -/
theorem mark_attendance_duplicate_snapshot (users : List UserRow)
    (att : List AttRow) (uid d now : String) (u : UserRow) (r : AttRow)
    (hu : users.find? (fun x => x.user_id == uid) = some u)
    (hr : r ∈ att) (hid : r.user_id = uid) (hd : r.date = d)
    (hname : r.name = u.name) (hroll : r.roll_number = u.roll_number)
    (hbranch : r.branch = u.branch) (himg : r.image_path = u.image_path) :
    mark_attendance users att uid d now = (some u, Status.duplicate, att) ∧
    u.name = r.name ∧ u.roll_number = r.roll_number ∧
    u.branch = r.branch ∧ u.image_path = r.image_path :=
  ⟨mark_attendance_duplicate_of_mem users att uid d now u r hu hr hid hd,
   hname.symm, hroll.symm, hbranch.symm, himg.symm⟩

/-- Witness for C5 on a table holding one row for the key. -/
theorem mark_attendance_duplicate_snapshot_witness :
    mark_attendance [ashaUser]
        [{ user_id := "1_Asha", name := "Asha", roll_number := 1,
           branch := "CSE", image_path := "", date := "2024-05-01",
           timestamp := "09:00:00" }] "1_Asha" "2024-05-01" "10:00:00" =
      (some ashaUser, Status.duplicate,
        [{ user_id := "1_Asha", name := "Asha", roll_number := 1,
           branch := "CSE", image_path := "", date := "2024-05-01",
           timestamp := "09:00:00" }]) ∧
    ashaUser.name = "Asha" ∧ ashaUser.roll_number = 1 ∧
    ashaUser.branch = "CSE" ∧ ashaUser.image_path = "" :=
  mark_attendance_duplicate_snapshot [ashaUser]
    [{ user_id := "1_Asha", name := "Asha", roll_number := 1,
       branch := "CSE", image_path := "", date := "2024-05-01",
       timestamp := "09:00:00" }] "1_Asha" "2024-05-01" "10:00:00" ashaUser
    { user_id := "1_Asha", name := "Asha", roll_number := 1,
      branch := "CSE", image_path := "", date := "2024-05-01",
      timestamp := "09:00:00" }
    (by decide) (by decide) rfl rfl rfl rfl rfl rfl

/-- Claim C6: when the identity has no row in the user directory,
`mark_attendance` returns the not-found outcome and the attendance table is
unchanged, whatever the date and time of the call. -/
theorem mark_attendance_unknown_identity (users : List UserRow)
    (att : List AttRow) (uid d now : String)
    (hu : users.find? (fun x => x.user_id == uid) = none) :
    mark_attendance users att uid d now = (none, Status.not_found, att) := by
  simp [mark_attendance, hu]

/-- Witness for C6 with an unregistered identity. -/
theorem mark_attendance_unknown_identity_witness :
    mark_attendance [ashaUser] [] "ghost-id" "2024-05-01" "09:00:00" =
      (none, Status.not_found, []) :=
  mark_attendance_unknown_identity [ashaUser] [] "ghost-id" "2024-05-01"
    "09:00:00" (by decide)

/-- Counterexample to C3: feeding the gate the registered identity at
t = 10.0s, 10.5s, 11.0s and 12.0s (scanner constructed at time 0) forwards
only the event at 10.0s — in particular the event at 12.0s, a full 2
seconds after the last forwarded one, is *not* forwarded, because the
condition at app.py line 323 demands a *different* identity in addition to
the elapsed window. -/
theorem gate_rescan_after_window_cex :
    (runFrames [ashaUser] "2024-05-01" "09:00:00" (initScanner 0) []
        [("1_Asha", 10000), ("1_Asha", 10500), ("1_Asha", 11000),
         ("1_Asha", 12000)]).2.2 = [("1_Asha", 10000)] := by decide

/-- Claim C3 (amended): a frame's payload is forwarded to the ledger iff it
is non-empty, its stripped form is non-empty and *differs* from the
last-seen identity, and more than the 1.5s window has elapsed since the
last forward — so events at t+0.5s and t+1.0s with the same identity are
suppressed as the claim says, but so is the event at t+2.0s: the same
identity as last-seen is suppressed at any elapsed time. -/
theorem transformStep_forwards_iff (users : List UserRow)
    (today now : String) (st : ScannerState) (att : List AttRow)
    (data : String) (t : Int) :
    (transformStep users today now st att data t).2.2 = true ↔
      data ≠ "" ∧ pyStrip data ≠ "" ∧ some (pyStrip data) ≠ st.last_id ∧
        debounce_window < t - st.last_time := by
  unfold transformStep scanStep
  by_cases h1 : data = ""
  · simp [h1]
  · by_cases h2 : pyStrip data ≠ "" ∧ some (pyStrip data) ≠ st.last_id ∧
        debounce_window < t - st.last_time
    · simp [h1, h2]
    · simp only [h1, h2]
      simp [h1, h2]

/-- Counterexample to C4: identity A at t = 10.0s, identity B at 10.1s and
A again at 10.2s forward only the first event, not all three — a different
identity does not cancel the debounce window, because the elapsed-time
conjunct at app.py line 323 also applies to new identities. -/
theorem gate_switch_through_cex :
    (runFrames [ashaUser] "2024-05-01" "09:00:00" (initScanner 0) []
        [("1_Asha", 10000), ("9_Ben", 10100), ("1_Asha", 10200)]).2.2 =
      [("1_Asha", 10000)] := by decide

/-- Claim C4 (amended): within 1.5s of the last forwarded event *no*
payload is forwarded, whatever its identity — presenting a different
identity does not cancel the window, so in the A, B-at-0.1s, A-at-0.2s
scenario only the first event reaches the ledger; the frame leaves the
gate memory and table untouched and at most expires the overlay. -/
theorem transformStep_window_suppresses_all (users : List UserRow)
    (today now : String) (st : ScannerState) (att : List AttRow)
    (data : String) (t : Int) (h : t - st.last_time ≤ debounce_window) :
    transformStep users today now st att data t =
      (expireStep st t, att, false) := by
  unfold transformStep scanStep
  by_cases h1 : data = ""
  · simp [h1]
  · have h2 : ¬(pyStrip data ≠ "" ∧ some (pyStrip data) ≠ st.last_id ∧
        debounce_window < t - st.last_time) := by
      rintro ⟨-, -, hlt⟩
      omega
    simp [h1, h2]

/-- Witness for the amended C4: identity B presented 0.1s after A was
forwarded is suppressed. -/
theorem transformStep_window_suppresses_all_witness :
    transformStep [ashaUser] "2024-05-01" "09:00:00"
        { last_id := some "1_Asha", last_time := 10000,
          overlay_message := "✔ Attendance Marked",
          overlay_color := (0, 200, 0), message_shown_time := 10000,
          current_user := some ashaUser } [] "9_Ben" 10100 =
      (expireStep
        { last_id := some "1_Asha", last_time := 10000,
          overlay_message := "✔ Attendance Marked",
          overlay_color := (0, 200, 0), message_shown_time := 10000,
          current_user := some ashaUser } 10100, [], false) :=
  transformStep_window_suppresses_all [ashaUser] "2024-05-01" "09:00:00"
    { last_id := some "1_Asha", last_time := 10000,
      overlay_message := "✔ Attendance Marked",
      overlay_color := (0, 200, 0), message_shown_time := 10000,
      current_user := some ashaUser } [] "9_Ben" 10100 (by decide)

/-- Counterexample to C7: with the overlay set at time 0 and the TTL of 4
seconds, the per-frame check at exactly t = 4.0s (now equal to the expiry
time) keeps the Resolved state — the code's comparison at app.py line 343
is strict (`>`), so "now ≥ expiry_time" is not the clearing condition. -/
theorem expire_boundary_cex :
    expireStep stResolved 4000 = stResolved ∧
    stResolved.overlay_message ≠ "" := by decide

/-- Claim C7 (amended): for a showing overlay message, a per-frame expiry
check clears the feedback exactly when now is *strictly* past the expiry
time (creation time plus the 4-second TTL); any check at or before the
expiry time leaves the state completely unchanged. -/
theorem expireStep_clears_iff (st : ScannerState) (t : Int)
    (h : st.overlay_message ≠ "") :
    ((expireStep st t).overlay_message = "" ↔
      message_timeout < t - st.message_shown_time) ∧
    (t - st.message_shown_time ≤ message_timeout → expireStep st t = st) := by
  by_cases hc : message_timeout < t - st.message_shown_time
  · refine ⟨?_, fun h2 => absurd hc (not_lt.mpr h2)⟩
    simp [expireStep, h, hc]
  · have hs : expireStep st t = st := by
      simp [expireStep, hc]
    rw [hs]
    exact ⟨by simp [h, hc], fun _ => rfl⟩

/-- Witness for the amended C7: one millisecond past the expiry time the
overlay clears. -/
theorem expireStep_clears_iff_witness :
    ((expireStep stResolved 4001).overlay_message = "" ↔
      message_timeout < 4001 - stResolved.message_shown_time) ∧
    (4001 - stResolved.message_shown_time ≤ message_timeout →
      expireStep stResolved 4001 = stResolved) :=
  expireStep_clears_iff stResolved 4001 (by decide)

/-- Counterexample to C8: with a registered user, an empty table and a
fresh valid scan, a failing ledger write makes the transform raise (the
`Except.error`) instead of producing any outcome — the status vocabulary
of `mark_attendance` has no WriteFailed member, and nothing catches the
exception. -/
theorem write_failure_cex :
    transformStepE false [ashaUser] "2024-05-01" "09:00:00"
        (initScanner 0) [] "1_Asha" 10000 =
      Except.error (initScanner 0, []) := rfl

/-- Claim C8 (amended): when the event is forwarded, the identity
resolves, no duplicate row exists, and the backing-store write fails, the
failure propagates out of the pipeline as an uncaught exception — there is
no distinct WriteFailed outcome — but the scanner state at the raise point
is the pre-frame state: `last_id` and `last_time` were not yet assigned,
so the same code can be forwarded again on the next presentation. -/
theorem transformStepE_write_failure (users : List UserRow)
    (today now : String) (st : ScannerState) (att : List AttRow)
    (data : String) (t : Int) (u : UserRow) (hd : data ≠ "")
    (hs : pyStrip data ≠ "") (hlast : some (pyStrip data) ≠ st.last_id)
    (ht : debounce_window < t - st.last_time)
    (hu : users.find? (fun x => x.user_id == pyStrip data) = some u)
    (hdup : att.any (attKey (pyStrip data) today) = false) :
    transformStepE false users today now st att data t =
      Except.error (st, att) := by
  unfold transformStepE
  have hme : mark_attendanceE false users att (pyStrip data) today now =
      Except.error () := by
    simp [mark_attendanceE, hu, hdup]
  simp [hd, hs, hlast, ht, hme]

/-- Witness for the amended C8 at a concrete fresh scan. -/
theorem transformStepE_write_failure_witness :
    transformStepE false [ashaUser] "2024-05-01" "09:00:01"
        (initScanner 5000) [] " 1_Asha " 10000 =
      Except.error (initScanner 5000, []) :=
  transformStepE_write_failure [ashaUser] "2024-05-01" "09:00:01"
    (initScanner 5000) [] " 1_Asha " 10000 ashaUser (by decide) (by decide)
    (by decide) (by decide) (by decide) rfl

/-- Counterexample to C9: two `mark_attendance` calls for the same
identity and day that both read the attendance CSV before either writes it
both return the success outcome, and the final file holds only the second
call's row (the first call's write is lost) — not one Success and one
Duplicate. -/
theorem interleaved_two_successes_cex :
    interleavedTwo [ashaUser] [] "1_Asha" "2024-05-01" "09:00:00"
        "09:00:01" =
      (Status.success, Status.success,
        [{ user_id := "1_Asha", name := "Asha", roll_number := 1,
           branch := "CSE", image_path := "", date := "2024-05-01",
           timestamp := "09:00:01" }]) := by decide

/-- Claim C9 (amended): the one-Success-one-Duplicate guarantee holds only
when the two calls are serialized — the second call reads the table the
first one wrote; the read/compare/append/write sequence of the code gives
no such guarantee for overlapping executions, which can both return
Success while the first write is lost. -/
theorem serialTwo_success_then_duplicate (users : List UserRow)
    (att : List AttRow) (uid d n1 n2 : String) (u : UserRow)
    (hu : users.find? (fun x => x.user_id == uid) = some u)
    (h0 : att.any (attKey uid d) = false) :
    (serialTwo users att uid d n1 n2).1 = Status.success ∧
    (serialTwo users att uid d n1 n2).2.1 = Status.duplicate ∧
    countKey (serialTwo users att uid d n1 n2).2.2 uid d = 1 := by
  unfold serialTwo
  have h1 := mark_attendance_first_call users att uid d n1 u hu h0
  have h2 := mark_attendance_duplicate_of_mem users
      (att ++ [{ user_id := uid, name := u.name,
                 roll_number := u.roll_number, branch := u.branch,
                 image_path := u.image_path, date := d,
                 timestamp := n1 }]) uid d n2 u
      { user_id := uid, name := u.name, roll_number := u.roll_number,
        branch := u.branch, image_path := u.image_path, date := d,
        timestamp := n1 }
      hu (by simp) rfl rfl
  rw [h1]
  simp only [h2]
  refine ⟨trivial, trivial, ?_⟩
  rw [countKey, List.filter_append,
    filter_eq_nil_of_any_eq_false att _ h0]
  simp [attKey]

/-- Witness for the amended C9: serialized calls on an empty table give one
success, one duplicate and one stored row. -/
theorem serialTwo_success_then_duplicate_witness :
    (serialTwo [ashaUser] [] "1_Asha" "2024-05-01" "09:00:00"
        "09:00:01").1 = Status.success ∧
    (serialTwo [ashaUser] [] "1_Asha" "2024-05-01" "09:00:00"
        "09:00:01").2.1 = Status.duplicate ∧
    countKey (serialTwo [ashaUser] [] "1_Asha" "2024-05-01" "09:00:00"
        "09:00:01").2.2 "1_Asha" "2024-05-01" = 1 :=
  serialTwo_success_then_duplicate [ashaUser] [] "1_Asha" "2024-05-01"
    "09:00:00" "09:00:01" ashaUser (by decide) rfl

/-- Counterexample to C10: a frame whose payload strips to the empty string
(here a single space) arriving 10s after the overlay was shown performs no
ledger operation and leaves the gate memory untouched, but it *does*
change the feedback state: the TTL expiry check runs on every frame and
clears the overlay. -/
theorem blank_payload_overlay_cex :
    transformStep [ashaUser] "2024-05-01" "09:00:00" stResolved [] " "
        10000 =
      ({ last_id := none, last_time := 0, overlay_message := "",
         overlay_color := (255, 255, 255), message_shown_time := 0,
         current_user := none }, [], false) ∧
    stResolved.overlay_message = "x" := by decide

/-- Claim C10 (amended): for a frame whose decoded payload strips to the
empty string, the pipeline performs no ledger operation and does not touch
the gate memory; the feedback state is not newly set, though an
already-showing message may still be cleared by the per-frame TTL expiry,
which runs regardless of the payload. -/
theorem transformStep_blank_payload (users : List UserRow)
    (today now : String) (st : ScannerState) (att : List AttRow)
    (data : String) (t : Int) (h : pyStrip data = "") :
    transformStep users today now st att data t =
      (expireStep st t, att, false) ∧
    (expireStep st t).last_id = st.last_id ∧
    (expireStep st t).last_time = st.last_time := by
  refine ⟨?_, ?_, ?_⟩
  · unfold transformStep scanStep
    by_cases h1 : data = ""
    · simp [h1]
    · simp [h1, h]
  · unfold expireStep
    by_cases hc : st.overlay_message ≠ "" ∧
        message_timeout < t - st.message_shown_time
    · simp [hc]
    · simp [hc]
  · unfold expireStep
    by_cases hc : st.overlay_message ≠ "" ∧
        message_timeout < t - st.message_shown_time
    · simp [hc]
    · simp [hc]

/-- Witness for the amended C10 on a whitespace-only payload. -/
theorem transformStep_blank_payload_witness :
    transformStep [ashaUser] "2024-05-01" "09:00:00" stResolved [] " "
        10000 = (expireStep stResolved 10000, [], false) ∧
    (expireStep stResolved 10000).last_id = stResolved.last_id ∧
    (expireStep stResolved 10000).last_time = stResolved.last_time :=
  transformStep_blank_payload [ashaUser] "2024-05-01" "09:00:00"
    stResolved [] " " 10000 (by decide)

end QRAttendance
